import Mathlib

set_option maxRecDepth 8000

/-!
Verification development for `src/social_contract_app/app/main.py`: a single-file
Flask application with one registered route (`GET /`) returning a static HTML
string through `render_template_string`, and a `__main__` entry point calling
`app.run(debug=True)`.

The embedding models the handler, the template rendering on its input, the
framework's request dispatch (route matching, automatic HEAD/OPTIONS methods,
404 for unmatched paths, 405 for unmatched methods), and the entry point.
-/

/-- Left brace character, written via its code point. -/
def lb : Char := Char.ofNat 123

/-- Right brace character, written via its code point. -/
def rb : Char := Char.ofNat 125

/-- Percent character, the second character of a Jinja statement delimiter. -/
def pct : Char := '%'

/-- Hash character, the second character of a Jinja comment delimiter. -/
def hashC : Char := '#'

/-- Checks whether `needle` occurs as a contiguous sublist of the second list. -/
def containsSub (needle : List Char) : List Char → Bool
  | [] => needle.isEmpty
  | c :: rest => needle.isPrefixOf (c :: rest) || containsSub needle rest

/-- Checks whether the string `needle` occurs as a substring of `hay`. -/
def strContains (hay needle : String) : Bool :=
  containsSub needle.data hay.data

/-- Checks whether the string `s` starts with the string `p`. -/
def strStartsWith (s p : String) : Bool :=
  p.data.isPrefixOf s.data

/-- Checks whether a string contains any opening Jinja delimiter:
a left brace followed by a left brace, a percent sign, or a hash sign. -/
def hasJinjaDelimiter (s : String) : Bool :=
  strContains s (String.mk [lb, lb]) ||
    strContains s (String.mk [lb, pct]) ||
    strContains s (String.mk [lb, hashC])

/-- Error raised by the modelled template renderer: an opening Jinja delimiter
that is never closed (Jinja raises an error on such templates). -/
inductive RenderError where
  | unclosedDelimiter
deriving DecidableEq

/-- Scanner mode of the modelled Jinja renderer: plain text, inside an
expression block, inside a statement block, or inside a comment block. -/
inductive JMode where
  | text
  | expr
  | stmt
  | comment
deriving DecidableEq

/-- Modelled Jinja rendering pass over the template's characters, with the
empty rendering context that `render_template_string` is called with in
`home`. Literal text outside delimiters is emitted verbatim, exactly as Jinja
emits it; delimited blocks are consumed (with the empty context an undefined
variable renders as the empty string), and an unclosed delimiter is an error.
Every claim below evaluates this only on delimiter-free templates, where the
pass is the identity. -/
def renderAux : JMode → List Char → Except RenderError (List Char)
  | .text, [] => .ok []
  | .text, [c] => .ok [c]
  | .text, c :: d :: rest =>
      if c == lb then
        if d == lb then renderAux .expr rest
        else if d == pct then renderAux .stmt rest
        else if d == hashC then renderAux .comment rest
        else (renderAux .text (d :: rest)).map (fun t => c :: t)
      else (renderAux .text (d :: rest)).map (fun t => c :: t)
  | .expr, [] => .error .unclosedDelimiter
  | .expr, [_] => .error .unclosedDelimiter
  | .expr, c :: d :: rest =>
      if c == rb && d == rb then renderAux .text rest
      else renderAux .expr (d :: rest)
  | .stmt, [] => .error .unclosedDelimiter
  | .stmt, [_] => .error .unclosedDelimiter
  | .stmt, c :: d :: rest =>
      if c == pct && d == rb then renderAux .text rest
      else renderAux .stmt (d :: rest)
  | .comment, [] => .error .unclosedDelimiter
  | .comment, [_] => .error .unclosedDelimiter
  | .comment, c :: d :: rest =>
      if c == hashC && d == rb then renderAux .text rest
      else renderAux .comment (d :: rest)

/-- Flask's `render_template_string` applied to a template with no template
arguments, as called in `home`: render the string as a Jinja template. -/
def render_template_string (tmpl : String) : Except RenderError String :=
  (renderAux .text tmpl.data).map String.mk

/-- The exact multi-line string literal passed to `render_template_string`
in `home` (main.py lines 10-15), including its leading newline and the
eight-space indentation of every line and of the trailing segment. -/
def htmlBody : String :=
  "\n        <!doctype html>\n        <title>Social Contract App</title>\n        <h1>Social Contract App</h1>\n        <p>Build your features here.</p>\n        "

/-- The view function `home` (main.py lines 6-16): it takes no arguments and
returns `render_template_string` applied to the fixed literal. -/
def home : Except RenderError String :=
  render_template_string htmlBody

/-- A registered URL rule: its path, its allowed methods, and its view
function's result. -/
structure Route where
  rule : String
  methods : List String
  view : Except RenderError String

/-- An HTTP request as seen by the dispatcher: method, path, headers and
query parameters (the handler reads none of the latter two). -/
structure Request where
  method : String
  path : String
  headers : List (String × String)
  query : List (String × String)
deriving DecidableEq

/-- An HTTP response: status code, Content-Type header value, and body. -/
structure Response where
  status : Nat
  contentType : String
  body : String
deriving DecidableEq

/-- The Flask application object: its registered routes and its
configuration, modelled as a key-value list (the code never writes to it). -/
structure App where
  routes : List Route
  config : List (String × String)

/-- The route registered by the `@app.route("/")` decorator (main.py line 6):
rule `/`, view `home`, and Flask's default method set, which is GET plus the
automatically added HEAD and OPTIONS. -/
def homeRoute : Route :=
  ⟨"/", ["GET", "HEAD", "OPTIONS"], home⟩

/-- The application object `app = Flask(__name__)` after module import: the
single registered route and an unmodified configuration. -/
def app : App :=
  ⟨[homeRoute], []⟩

/-- Werkzeug's default not-found response for a path no rule matches. -/
def notFoundResponse : Response :=
  ⟨404, "text/html; charset=utf-8", "404 Not Found"⟩

/-- Werkzeug's default response for a matched path whose rule does not allow
the request method. -/
def methodNotAllowedResponse : Response :=
  ⟨405, "text/html; charset=utf-8", "405 Method Not Allowed"⟩

/-- Werkzeug's automatic OPTIONS response, produced by the framework without
invoking the view function. -/
def automaticOptionsResponse : Response :=
  ⟨200, "text/html; charset=utf-8", ""⟩

/-- Flask's wrapping of a view function's outcome into a response: a returned
string becomes a 200 response with Content-Type `text/html; charset=utf-8`;
an uncaught exception becomes a 500 response. -/
def viewResponse (v : Except RenderError String) : Response :=
  match v with
  | .ok body => ⟨200, "text/html; charset=utf-8", body⟩
  | .error _ => ⟨500, "text/html; charset=utf-8", "500 Internal Server Error"⟩

/-- Request dispatch as the framework performs it for this application:
find a route whose rule equals the request path (404 if none), reject the
request method if the rule does not allow it (405), serve OPTIONS
automatically, and otherwise invoke the view function. -/
def dispatch (a : App) (req : Request) : Response :=
  match a.routes.find? (fun r => r.rule == req.path) with
  | none => notFoundResponse
  | some r =>
      if r.methods.contains req.method then
        if req.method == "OPTIONS" then automaticOptionsResponse
        else viewResponse r.view
      else methodNotAllowedResponse

/-- One request-response cycle at the application level: the application
object is returned unchanged alongside the response, as the handler body
contains no assignment to any application state (main.py lines 6-16). -/
def handleOne (a : App) (req : Request) : App × Response :=
  (a, dispatch a req)

/-- Serves a sequence of requests, threading the application object through
each request-response cycle, and returns the final application object. -/
def serveAll : App → List Request → App
  | a, [] => a
  | a, req :: rest => serveAll (handleOne a req).1 rest

/-- The configuration `app.run` starts the development server with. -/
structure RunConfig where
  host : String
  port : Nat
  debug : Bool
  useReloader : Bool
  useDebugger : Bool
deriving DecidableEq

/-- Flask's `app.run(debug=...)` with no other arguments: default host
`127.0.0.1`, default port 5000, and the reloader and debugger both enabled
exactly when `debug` is. -/
def appRun (debug : Bool) : RunConfig :=
  ⟨"127.0.0.1", 5000, debug, debug, debug⟩

/-- The module's entry point (main.py lines 19-20): when the module is run as
the main program, call `app.run(debug=True)`; otherwise start nothing. The
process environment is a parameter to record that the code reads none of it. -/
def pythonMain (isMain : Bool) (_env : List (String × String)) : Option RunConfig :=
  if isMain then some (appRun true) else none

/-- Helper: a GET request for the root path is dispatched to the `home` view. -/
theorem dispatch_get_root (req : Request) (hm : req.method = "GET")
    (hp : req.path = "/") : dispatch app req = viewResponse home := by
  obtain ⟨m, p, hs, q⟩ := req
  change m = "GET" at hm
  change p = "/" at hp
  subst hm hp
  rfl

/-- C1: every GET request to the path `/` receives status 200 with the fixed
HTML body. -/
theorem get_root_status_ok (req : Request) (hm : req.method = "GET")
    (hp : req.path = "/") :
    (dispatch app req).status = 200 ∧ (dispatch app req).body = htmlBody := by
  rw [dispatch_get_root req hm hp]
  exact ⟨rfl, rfl⟩

/-- Witness for C1 at the concrete request GET `/`. -/
theorem get_root_status_ok_witness :
    (dispatch app ⟨"GET", "/", [], []⟩).status = 200 ∧
      (dispatch app ⟨"GET", "/", [], []⟩).body = htmlBody :=
  get_root_status_ok ⟨"GET", "/", [], []⟩ rfl rfl

/-- C2: the body of the response to every GET request to `/` contains both
the literal substrings "Social Contract App" and "Build your features here.". -/
theorem get_root_body_substrings (req : Request) (hm : req.method = "GET")
    (hp : req.path = "/") :
    strContains (dispatch app req).body "Social Contract App" = true ∧
      strContains (dispatch app req).body "Build your features here." = true := by
  rw [dispatch_get_root req hm hp]
  exact ⟨by decide, by decide⟩

/-- Witness for C2 at the concrete request GET `/`. -/
theorem get_root_body_substrings_witness :
    strContains (dispatch app ⟨"GET", "/", [], []⟩).body "Social Contract App" = true ∧
      strContains (dispatch app ⟨"GET", "/", [], []⟩).body "Build your features here." = true :=
  get_root_body_substrings ⟨"GET", "/", [], []⟩ rfl rfl

/-- C3: the Content-Type of the response to every GET request to `/` is
`text/html; charset=utf-8`, which indicates HTML: it starts with `text/html`. -/
theorem get_root_content_type (req : Request) (hm : req.method = "GET")
    (hp : req.path = "/") :
    (dispatch app req).contentType = "text/html; charset=utf-8" ∧
      strStartsWith (dispatch app req).contentType "text/html" = true := by
  rw [dispatch_get_root req hm hp]
  exact ⟨rfl, by decide⟩

/-- Witness for C3 at the concrete request GET `/`. -/
theorem get_root_content_type_witness :
    (dispatch app ⟨"GET", "/", [], []⟩).contentType = "text/html; charset=utf-8" ∧
      strStartsWith (dispatch app ⟨"GET", "/", [], []⟩).contentType "text/html" = true :=
  get_root_content_type ⟨"GET", "/", [], []⟩ rfl rfl

/-- Helper: a request whose path matches the root rule reduces dispatch to the
method check of the root route. -/
theorem dispatch_root_method (m : String) (hs q : List (String × String)) :
    dispatch app ⟨m, "/", hs, q⟩ =
      (if homeRoute.methods.contains m then
        (if m == "OPTIONS" then automaticOptionsResponse else viewResponse homeRoute.view)
      else methodNotAllowedResponse) :=
  rfl

/-- C4: every request whose path is not `/` receives the framework's default
not-found status 404, whatever its method. -/
theorem unknown_path_not_found (req : Request) (hp : req.path ≠ "/") :
    (dispatch app req).status = 404 := by
  have h : (homeRoute.rule == req.path) = false :=
    beq_eq_false_iff_ne.mpr (fun h2 => hp h2.symm)
  have hfind : app.routes.find? (fun r => r.rule == req.path) = none := by
    show List.find? _ [homeRoute] = none
    rw [List.find?_cons_of_neg, List.find?_nil]
    simp [h]
  unfold dispatch
  rw [hfind]
  rfl

/-- Witness for C4 at the concrete request GET `/nope`. -/
theorem unknown_path_not_found_witness :
    (dispatch app ⟨"GET", "/nope", [], []⟩).status = 404 :=
  unknown_path_not_found ⟨"GET", "/nope", [], []⟩ (by decide)

/-- Counterexample to C5: the request HEAD `/` has a method other than GET,
yet it is handled by the registered handler — dispatch returns the view
function's own 200 response, not a default not-found response. -/
theorem head_root_served_by_view :
    (⟨"HEAD", "/", [], []⟩ : Request).method ≠ "GET" ∧
      dispatch app ⟨"HEAD", "/", [], []⟩ = viewResponse home ∧
      (dispatch app ⟨"HEAD", "/", [], []⟩).status = 200 :=
  ⟨by decide, rfl, rfl⟩

/-- C5 as amended: a request to `/` whose method is outside the route's
method set (GET plus the automatic HEAD and OPTIONS) is not handled by the
registered handler, and the framework's default method-not-allowed response
with status 405 applies. -/
theorem non_allowed_method_root (req : Request) (hp : req.path = "/")
    (hm : homeRoute.methods.contains req.method = false) :
    dispatch app req = methodNotAllowedResponse ∧
      (dispatch app req).status = 405 := by
  obtain ⟨m, p, hs, q⟩ := req
  change p = "/" at hp
  change homeRoute.methods.contains m = false at hm
  subst hp
  rw [dispatch_root_method m hs q, hm]
  exact ⟨rfl, rfl⟩

/-- Witness for the amended C5 at the concrete request POST `/`. -/
theorem non_allowed_method_root_witness :
    dispatch app ⟨"POST", "/", [], []⟩ = methodNotAllowedResponse ∧
      (dispatch app ⟨"POST", "/", [], []⟩).status = 405 :=
  non_allowed_method_root ⟨"POST", "/", [], []⟩ rfl (by decide)

/-- C6: the handler is deterministic and input-independent — any two GET
requests to `/` receive identical responses, whatever their headers or query
parameters. -/
theorem get_root_deterministic (r1 r2 : Request) (hm1 : r1.method = "GET")
    (hp1 : r1.path = "/") (hm2 : r2.method = "GET") (hp2 : r2.path = "/") :
    dispatch app r1 = dispatch app r2 := by
  rw [dispatch_get_root r1 hm1 hp1, dispatch_get_root r2 hm2 hp2]

/-- Witness for C6 at two concrete GET `/` requests that differ in headers
and query parameters. -/
theorem get_root_deterministic_witness :
    dispatch app ⟨"GET", "/", [("X-Forwarded-For", "10.0.0.1")], []⟩ =
      dispatch app ⟨"GET", "/", [], [("q", "2")]⟩ :=
  get_root_deterministic ⟨"GET", "/", [("X-Forwarded-For", "10.0.0.1")], []⟩
    ⟨"GET", "/", [], [("q", "2")]⟩ rfl rfl rfl rfl

/-- C7: run as the main program, the entry point starts the development
server with debug, reloader and debugger enabled, on the default host and
port, and the process environment does not alter any of this. -/
theorem main_entry_debug (env : List (String × String)) :
    pythonMain true env = some (appRun true) ∧
      (appRun true).debug = true ∧ (appRun true).useReloader = true ∧
      (appRun true).useDebugger = true :=
  ⟨rfl, rfl, rfl, rfl⟩

/-- Witness for C7 at a concrete environment. -/
theorem main_entry_debug_witness :
    pythonMain true [("FLASK_ENV", "production")] = some (appRun true) ∧
      (appRun true).debug = true ∧ (appRun true).useReloader = true ∧
      (appRun true).useDebugger = true :=
  main_entry_debug [("FLASK_ENV", "production")]

/-- Helper: serving any sequence of requests returns any application object
unchanged, since each request-response cycle returns it unchanged. -/
theorem serveAll_id (a : App) (reqs : List Request) : serveAll a reqs = a := by
  induction reqs with
  | nil => rfl
  | cons req rest ih => exact ih

/-- C8: handling requests leaves the application state unchanged — after
serving any sequence of requests, the application object (its registered
routes and configuration) equals its state at startup. -/
theorem app_state_unchanged (reqs : List Request) : serveAll app reqs = app :=
  serveAll_id app reqs

/-- Witness for C8 at a concrete two-request sequence. -/
theorem app_state_unchanged_witness :
    serveAll app [⟨"GET", "/", [], []⟩, ⟨"POST", "/nope", [], []⟩] = app :=
  app_state_unchanged [⟨"GET", "/", [], []⟩, ⟨"POST", "/nope", [], []⟩]

/-- Helper: one unfolding step of `containsSub` on a non-empty list. -/
theorem containsSub_cons (needle : List Char) (c : Char) (cs : List Char) :
    containsSub needle (c :: cs) =
      (needle.isPrefixOf (c :: cs) || containsSub needle cs) :=
  rfl

/-- Helper: a two-character pattern starts a list of length at least two
exactly when both characters match. -/
theorem isPrefixOf_two (a b c d : Char) (rest : List Char) :
    [a, b].isPrefixOf (c :: d :: rest) = (a == c && b == d) := by
  simp [List.isPrefixOf]

/-- Helper: character equality tests are symmetric in their falsehood. -/
theorem beq_false_symm {a b : Char} (h : (a == b) = false) : (b == a) = false := by
  rw [beq_eq_false_iff_ne] at h ⊢
  exact fun he => h he.symm

/-- Helper: on a character list containing no opening Jinja delimiter, the
rendering pass in text mode is the identity. -/
theorem renderAux_text_id : ∀ cs : List Char,
    containsSub [lb, lb] cs = false → containsSub [lb, pct] cs = false →
    containsSub [lb, hashC] cs = false → renderAux .text cs = .ok cs
  | [], _, _, _ => rfl
  | [_], _, _, _ => rfl
  | c :: d :: rest, h1, h2, h3 => by
      rw [containsSub_cons, Bool.or_eq_false_iff] at h1 h2 h3
      have ht := renderAux_text_id (d :: rest) h1.2 h2.2 h3.2
      unfold renderAux
      cases hc : (c == lb) with
      | false =>
          rw [if_neg (by simp)]
          rw [ht]
          rfl
      | true =>
          have hce : c = lb := by rwa [beq_iff_eq] at hc
          subst hce
          rw [isPrefixOf_two] at h1 h2 h3
          have hll : (lb == lb) = true := beq_self_eq_true lb
          have hd1 : (d == lb) = false := by
            have := h1.1
            rw [hll, Bool.true_and] at this
            exact beq_false_symm this
          have hd2 : (d == pct) = false := by
            have := h2.1
            rw [hll, Bool.true_and] at this
            exact beq_false_symm this
          have hd3 : (d == hashC) = false := by
            have := h3.1
            rw [hll, Bool.true_and] at this
            exact beq_false_symm this
          rw [if_pos rfl, hd1, if_neg (by simp), hd2, if_neg (by simp),
            hd3, if_neg (by simp)]
          rw [ht]
          rfl

/-- C9: rendering is the identity on templates with no Jinja delimiter — in
particular on the handler's template, whose response body therefore equals
the string literal character for character. -/
theorem render_identity_no_delims (s : String) (h : hasJinjaDelimiter s = false) :
    render_template_string s = Except.ok s := by
  rw [hasJinjaDelimiter, strContains, strContains, strContains,
    Bool.or_eq_false_iff, Bool.or_eq_false_iff] at h
  rw [render_template_string, renderAux_text_id s.data h.1.1 h.1.2 h.2]
  rfl

/-- Witness for C9 at the handler's actual template: it has no Jinja
delimiter, so the rendered body is the literal itself, leading whitespace
included. -/
theorem render_identity_no_delims_witness :
    hasJinjaDelimiter htmlBody = false ∧
      render_template_string htmlBody = Except.ok htmlBody :=
  ⟨by decide, render_identity_no_delims htmlBody (by decide)⟩

/-- C10: the view function `home` is total — it terminates normally with a
string result, raising no error. -/
theorem home_total : ∃ s : String, home = Except.ok s :=
  ⟨htmlBody, rfl⟩
